import Mathlib

/-!
Shallow embedding of the routing-and-streaming orchestration layer of the
Multi-Agent AI Assistant repository.

Sources embedded:
  * `src/backend.py` — the `/multi-agent/stream` endpoint (`event_generator`)
    and the legacy `/llm/stream` endpoint;
  * `src/services/specialized_agents.py` — the six domain agents and
    `AGENT_REGISTRY`;
  * `src/services/llm_service.py` — `LLMService.stream_chat_completion`;
  * `src/config/settings.py` — `agent_domains`.

External collaborators (`mem0_service`, `serpapi_service`, `chromadb_service`,
`supervisor_agent.route`, the OpenAI/Groq clients) are not part of `src/`;
their per-request outcomes are passed in as explicit environment records whose
fields return `Except String _` (an `Except.error e` models the Python call
raising an exception whose `str` is `e`).  Python `json.dumps` of the small
dict shapes that occur is modelled by concrete serializers; its exact
rendering affects only prompt text handed to the abstract completion call.
-/

/-- A chat message `{role, content}` (pydantic `Message` in `backend.py`). -/
structure ChatMessage where
  role : String
  content : String
deriving DecidableEq, Repr

/-- Pydantic `MultiModalRequest` from `backend.py`. -/
structure MultiModalRequest where
  user_id : String
  session_id : String
  message : String
  mode : String
  conversation_history : Option (List ChatMessage)
deriving DecidableEq, Repr

/-- The `user_memories` dict built by `event_generator` step 1:
`{"memories": memories, "user_id": payload.user_id}`. -/
structure UserMemories where
  memories : List String
  user_id : String
deriving DecidableEq, Repr

/-- A scalar metadata value (string or number) as stored in Mem0 metadata. -/
inductive MetaVal where
  | s (v : String)
  | n (v : Nat)
deriving DecidableEq, Repr

/-- Metadata mapping passed to `mem0_service.add_memory`. -/
abbrev Metadata := List (String × MetaVal)

/-- One performed `mem0_service.add_memory(user_id, message, metadata)` call,
i.e. a persisted MemoryRecord. -/
structure MemoryAdd where
  user_id : String
  message : String
  metadata : Metadata
deriving DecidableEq, Repr

/-- A SerpAPI search result dict; `title`/`snippet` keys may be absent. -/
structure SearchResult where
  title : Option String
  snippet : Option String
deriving DecidableEq, Repr

/-- A ChromaDB query result dict; the `document` key may be absent. -/
structure DocResult where
  document : Option String
deriving DecidableEq, Repr

/-- Observable behaviour of one `agent.process(...)` async-generator run:
the text chunks yielded before termination, the memory appends performed,
and `some e` when the run ended by raising an exception (after the listed
chunks and appends). -/
structure ProcessTrace where
  chunks : List String
  adds : List MemoryAdd
  err : Option String
deriving DecidableEq, Repr

/-- Outcomes of the external calls a domain agent makes during `process`:
`mem0_service.retrieve_memories`, the three `serpapi_service` searches,
`chromadb_service.query_documents`, `self.llm.ainvoke` (argument: the prompt),
and `mem0_service.add_memory`. -/
structure AgentEnv where
  retrieveMemories : String → Except String (List String)
  searchNews : String → Nat → Except String (List SearchResult)
  searchJobs : String → Nat → Except String (List SearchResult)
  searchRecipes : String → Nat → Except String (List SearchResult)
  queryDocuments : String → Except String (List DocResult)
  llmInvoke : String → Except String String
  addMemory : String → String → Metadata → Except String Unit

deriving instance DecidableEq for Except

/-- Model of `json.dumps` on a list of strings. -/
def dumpsStrings (l : List String) : String :=
  "[" ++ String.intercalate ", " (l.map (fun v => "\"" ++ v ++ "\"")) ++ "]"

/-- Model of `json.dumps(user_memories or \x7b\x7d)` for the dict shape built in
`event_generator` step 1. -/
def dumpsUserMemories : Option UserMemories → String
  | none => "\x7b\x7d"
  | some um =>
      "\x7b\"memories\": " ++ dumpsStrings um.memories ++
      ", \"user_id\": \"" ++ um.user_id ++ "\"\x7d"

/-- Model of `json.dumps` on one search-result dict. -/
def dumpsSearchResult (r : SearchResult) : String :=
  "\x7b" ++
  (match r.title with
   | none => ""
   | some t => "\"title\": \"" ++ t ++ "\"") ++
  (match r.snippet with
   | none => ""
   | some sn => ", \"snippet\": \"" ++ sn ++ "\"") ++
  "\x7d"

/-- Model of `json.dumps` on a list of search-result dicts. -/
def dumpsSearchResults (l : List SearchResult) : String :=
  "[" ++ String.intercalate ", " (l.map dumpsSearchResult) ++ "]"

/-- One line of the research context: `- {title or N/A}: {snippet or empty}`. -/
def newsLine (r : SearchResult) : String :=
  "- " ++ r.title.getD "N/A" ++ ": " ++ r.snippet.getD "" ++ "\n"

/-- One line of the document context: first 200 chars of `document`. -/
def docLine (d : DocResult) : String :=
  "- " ++ (d.document.getD "").take 200 ++ "...\n"

/-- String `context_str` built by `ResearchAgent.process` from news and document
results (`specialized_agents.py` lines 73-79). -/
def research_context_str (news : List SearchResult) (docs : List DocResult) : String :=
  "Recent News Results:\n" ++ String.join (news.map newsLine) ++
  "\nRelevant Documents:\n" ++ String.join ((docs.take 3).map docLine)

/-- The research prompt template (`specialized_agents.py` lines 81-99);
line indentation of the Python triple-quoted literal is kept as newlines. -/
def research_prompt (message context_str um_json : String) : String :=
  "\nYou are an **Academic Research Scientist**. \n" ++
  "Your goal is to provide deep, technical, and scientifically accurate information.\n\n" ++
  "Detailed Instructions:\n" ++
  "1. **Focus on Facts**: Prioritize peer-reviewed papers, official reports, and technical documentation.\n" ++
  "2. **Future Trends**: When asked about future years (e.g., 2025), interpret this as checking for pre-prints (arXiv), upcoming conference schedules (NeurIPS, CVPR), or roadmap announcements.\n" ++
  "3. **No Fluff**: Avoid generic advice. Give specific titles, dates, or theories where possible.\n" ++
  "4. **Scope**: Do NOT provide commercial product reviews, travel tips, or job listings unless explicitly crucial to the research context.\n\n" ++
  "User Query: " ++ message ++ "\n\n" ++
  "Context Information:\n" ++ context_str ++ "\n\n" ++
  "User Background: " ++ um_json ++ "\n\n" ++
  "Provide a structured, academic-grade response capable of citing sources.\n"

/-- The fixed first fragment yielded by `ResearchAgent.process`. -/
def research_preamble : String := "🔍 Searching for research information...\n"

/-- Embeds `ResearchAgent.process` (`specialized_agents.py` lines 54-109), as a
function from the outcomes of its external calls to its observable trace.
Control flow from the source: yield preamble; `_get_user_context` (a
`retrieve_memories` call); `search_news(message, 3)`;
`query_documents(message)`; build `context_str` and the prompt;
`llm.ainvoke`; yield the full response content; `add_memory`.  Any raising
call terminates the generator at that point. -/
def ResearchAgent_process (message user_id : String)
    (user_memories : Option UserMemories) (env : AgentEnv) : ProcessTrace :=
  let pre := research_preamble
  match env.retrieveMemories user_id with
  | .error e => ⟨[pre], [], some e⟩
  | .ok _mems =>
    match env.searchNews message 3 with
    | .error e => ⟨[pre], [], some e⟩
    | .ok news =>
      match env.queryDocuments message with
      | .error e => ⟨[pre], [], some e⟩
      | .ok docs =>
        let context_str := research_context_str news docs
        let prompt := research_prompt message context_str (dumpsUserMemories user_memories)
        match env.llmInvoke prompt with
        | .error e => ⟨[pre], [], some e⟩
        | .ok content =>
          let record : MemoryAdd :=
            ⟨user_id, "Researched: " ++ message.take 100,
             [("domain", MetaVal.s "research"), ("query", MetaVal.s message)]⟩
          match env.addMemory record.user_id record.message record.metadata with
          | .error e => ⟨[pre, content], [], some e⟩
          | .ok _ => ⟨[pre, content], [record], none⟩

/-- The fixed first fragment yielded by `FinanceAgent.process`. -/
def finance_preamble : String := "💰 Analyzing financial information...\n"

/-- The finance prompt template (`specialized_agents.py` lines 135-146). -/
def finance_prompt (message fin_json um_json : String) : String :=
  "\nYou are a financial advisor. Provide financial insights based on the query.\n\n" ++
  "User Query: " ++ message ++ "\n\n" ++
  "Financial Context:\n" ++ fin_json ++ "\n\n" ++
  "User Profile: " ++ um_json ++ "\n\n" ++
  "Provide balanced, informative financial guidance. Include disclaimers as appropriate.\n"

/-- Embeds `FinanceAgent.process` (`specialized_agents.py` lines 118-155). -/
def FinanceAgent_process (message user_id : String)
    (user_memories : Option UserMemories) (env : AgentEnv) : ProcessTrace :=
  let pre := finance_preamble
  match env.retrieveMemories user_id with
  | .error e => ⟨[pre], [], some e⟩
  | .ok _mems =>
    match env.searchNews (message ++ " financial news") 5 with
    | .error e => ⟨[pre], [], some e⟩
    | .ok financial_info =>
      let prompt := finance_prompt message (dumpsSearchResults financial_info)
        (dumpsUserMemories user_memories)
      match env.llmInvoke prompt with
      | .error e => ⟨[pre], [], some e⟩
      | .ok content =>
        let record : MemoryAdd :=
          ⟨user_id, "Financial Query: " ++ message.take 100,
           [("domain", MetaVal.s "finance"), ("query", MetaVal.s message)]⟩
        match env.addMemory record.user_id record.message record.metadata with
        | .error e => ⟨[pre, content], [], some e⟩
        | .ok _ => ⟨[pre, content], [record], none⟩

/-- The fixed first fragment yielded by `TravelAgent.process`. -/
def travel_preamble : String := "✈️ Searching for travel options...\n"

/-- The travel prompt template (`specialized_agents.py` lines 178-187). -/
def travel_prompt (message um_json : String) : String :=
  "\nYou are a travel expert. Help plan the user\x27s trip.\n\n" ++
  "User Query: " ++ message ++ "\n\n" ++
  "User Travel Preferences: " ++ um_json ++ "\n\n" ++
  "Provide detailed travel suggestions including flight/hotel tips,\n" ++
  "best times to visit, budget estimates, and local recommendations.\n"

/-- Embeds `TravelAgent.process` (`specialized_agents.py` lines 164-196); it calls
no search tool. -/
def TravelAgent_process (message user_id : String)
    (user_memories : Option UserMemories) (env : AgentEnv) : ProcessTrace :=
  let pre := travel_preamble
  match env.retrieveMemories user_id with
  | .error e => ⟨[pre], [], some e⟩
  | .ok _mems =>
    let prompt := travel_prompt message (dumpsUserMemories user_memories)
    match env.llmInvoke prompt with
    | .error e => ⟨[pre], [], some e⟩
    | .ok content =>
      let record : MemoryAdd :=
        ⟨user_id, "Travel Interest: " ++ message.take 100,
         [("domain", MetaVal.s "travel"), ("query", MetaVal.s message)]⟩
      match env.addMemory record.user_id record.message record.metadata with
      | .error e => ⟨[pre, content], [], some e⟩
      | .ok _ => ⟨[pre, content], [record], none⟩

/-- The fixed first fragment yielded by `ShoppingAgent.process`. -/
def shopping_preamble : String := "🛍️ Finding product recommendations...\n"

/-- The shopping prompt template (`specialized_agents.py` lines 222-233). -/
def shopping_prompt (message results_json um_json : String) : String :=
  "\nYou are a shopping assistant. Recommend products based on the user\x27s needs.\n\n" ++
  "User Query: " ++ message ++ "\n\n" ++
  "Available Products/Options:\n" ++ results_json ++ "\n\n" ++
  "User Preferences: " ++ um_json ++ "\n\n" ++
  "Provide thoughtful recommendations with pros/cons and budget considerations.\n"

/-- Embeds `ShoppingAgent.process` (`specialized_agents.py` lines 205-242). -/
def ShoppingAgent_process (message user_id : String)
    (user_memories : Option UserMemories) (env : AgentEnv) : ProcessTrace :=
  let pre := shopping_preamble
  match env.retrieveMemories user_id with
  | .error e => ⟨[pre], [], some e⟩
  | .ok _mems =>
    match env.searchNews (message ++ " products reviews") 5 with
    | .error e => ⟨[pre], [], some e⟩
    | .ok search_results =>
      let prompt := shopping_prompt message (dumpsSearchResults search_results)
        (dumpsUserMemories user_memories)
      match env.llmInvoke prompt with
      | .error e => ⟨[pre], [], some e⟩
      | .ok content =>
        let record : MemoryAdd :=
          ⟨user_id, "Shopping Interest: " ++ message.take 100,
           [("domain", MetaVal.s "shopping"), ("query", MetaVal.s message)]⟩
        match env.addMemory record.user_id record.message record.metadata with
        | .error e => ⟨[pre, content], [], some e⟩
        | .ok _ => ⟨[pre, content], [record], none⟩

/-- The fixed first fragment yielded by `JobsAgent.process`. -/
def jobs_preamble : String := "💼 Searching for job opportunities...\n"

/-- The jobs prompt template (`specialized_agents.py` lines 267-285). -/
def jobs_prompt (message jobs_json um_json : String) : String :=
  "\nYou are a **Career & Talent Acquisition Specialist**.\n" ++
  "Your goal is to help users find jobs, improve resumes, and navigate their careers.\n\n" ++
  "Detailed Instructions:\n" ++
  "1. **Scope Enforcer**: If the user\x27s query is NOT about jobs, careers, hiring, or professional development, do not attempt to answer it. State clearly that you are the Jobs Agent and this query seems better suited for another specialist (like Research or Finance).\n" ++
  "2. **Job Search**: When asked for jobs, look for specific roles, locations, and requirements.\n" ++
  "3. **Career Advice**: Provide actionable tips for interviews, networking, and salary negotiation.\n" ++
  "4. **Anti-Hallucination**: Do not invent job postings. Use the provided search results.\n\n" ++
  "User Query: " ++ message ++ "\n\n" ++
  "Available Jobs:\n" ++ jobs_json ++ "\n\n" ++
  "User Profile: " ++ um_json ++ "\n\n" ++
  "Provide professional career guidance or job listings.\n"

/-- Embeds `JobsAgent.process` (`specialized_agents.py` lines 251-294). -/
def JobsAgent_process (message user_id : String)
    (user_memories : Option UserMemories) (env : AgentEnv) : ProcessTrace :=
  let pre := jobs_preamble
  match env.retrieveMemories user_id with
  | .error e => ⟨[pre], [], some e⟩
  | .ok _mems =>
    match env.searchJobs message 5 with
    | .error e => ⟨[pre], [], some e⟩
    | .ok jobs =>
      let prompt := jobs_prompt message (dumpsSearchResults jobs)
        (dumpsUserMemories user_memories)
      match env.llmInvoke prompt with
      | .error e => ⟨[pre], [], some e⟩
      | .ok content =>
        let record : MemoryAdd :=
          ⟨user_id, "Job Search: " ++ message.take 100,
           [("domain", MetaVal.s "jobs"), ("query", MetaVal.s message)]⟩
        match env.addMemory record.user_id record.message record.metadata with
        | .error e => ⟨[pre, content], [], some e⟩
        | .ok _ => ⟨[pre, content], [record], none⟩

/-- The fixed first fragment yielded by `RecipesAgent.process`. -/
def recipes_preamble : String := "👨🍳 Finding recipes for you...\n"

/-- The recipes prompt template (`specialized_agents.py` lines 317-333). -/
def recipes_prompt (message recipes_json um_json : String) : String :=
  "\nYou are a culinary expert and recipe guide.\n\n" ++
  "User Query: " ++ message ++ "\n\n" ++
  "Recipe Options:\n" ++ recipes_json ++ "\n\n" ++
  "User Dietary Preferences: " ++ um_json ++ "\n\n" ++
  "Provide detailed recipe recommendations with:\n" ++
  "- Ingredients and quantities\n" ++
  "- Step-by-step instructions\n" ++
  "- Cooking time and difficulty level\n" ++
  "- Nutritional information if available\n" ++
  "- Dietary notes and substitutions\n"

/-- Embeds `RecipesAgent.process` (`specialized_agents.py` lines 303-342). -/
def RecipesAgent_process (message user_id : String)
    (user_memories : Option UserMemories) (env : AgentEnv) : ProcessTrace :=
  let pre := recipes_preamble
  match env.retrieveMemories user_id with
  | .error e => ⟨[pre], [], some e⟩
  | .ok _mems =>
    match env.searchRecipes message 5 with
    | .error e => ⟨[pre], [], some e⟩
    | .ok recipes =>
      let prompt := recipes_prompt message (dumpsSearchResults recipes)
        (dumpsUserMemories user_memories)
      match env.llmInvoke prompt with
      | .error e => ⟨[pre], [], some e⟩
      | .ok content =>
        let record : MemoryAdd :=
          ⟨user_id, "Recipe Interest: " ++ message.take 100,
           [("domain", MetaVal.s "recipes"), ("query", MetaVal.s message)]⟩
        match env.addMemory record.user_id record.message record.metadata with
        | .error e => ⟨[pre, content], [], some e⟩
        | .ok _ => ⟨[pre, content], [record], none⟩

/-- Type of an embedded `agent.process` method. -/
abbrev AgentProc :=
  String → String → Option UserMemories → AgentEnv → ProcessTrace

/-- Embeds `AGENT_REGISTRY` (`specialized_agents.py` lines 354-361): the static
mapping from domain identifier to agent. -/
def AGENT_REGISTRY : List (String × AgentProc) :=
  [("research", ResearchAgent_process),
   ("finance", FinanceAgent_process),
   ("travel", TravelAgent_process),
   ("shopping", ShoppingAgent_process),
   ("jobs", JobsAgent_process),
   ("recipes", RecipesAgent_process)]

/-- Dict lookup `AGENT_REGISTRY.get(key)`, returning `none` when absent. -/
def lookupRegistry (d : String) : Option AgentProc :=
  AGENT_REGISTRY.lookup d

/-- Embeds `Settings.agent_domains` (`settings.py` lines 41-48). -/
def agent_domains : List String :=
  ["research", "finance", "travel", "shopping", "jobs", "recipes"]

/-- One server-sent event emitted by an endpoint, modelled as the JSON object
serialized into `data: ...`.  A content fragment has `content`, `agent` and
`mode`; an error fragment has `error` and `content` only; legacy-endpoint
fragments have `content` only. -/
structure Event where
  content : Option String
  agent : Option String
  mode : Option String
  error : Option String
deriving DecidableEq, Repr

/-- The content fragment `{"content": chunk, "agent": a, "mode": m}` emitted
inside the streaming loop of `event_generator` (`backend.py` lines 236-241). -/
def contentEvent (chunk a m : String) : Event :=
  ⟨some chunk, some a, some m, none⟩

/-- The error fragment `{"error": str(e), "content": "Error: " + str(e)}`
emitted by the `except` handler of `event_generator` (`backend.py` line 262). -/
def errEvent (e : String) : Event :=
  ⟨some ("Error: " ++ e), none, none, some e⟩

/-- Observable behaviour of one `/multi-agent/stream` request: the SSE events
emitted, in order, and the `add_memory` calls performed, in order. -/
structure StreamResult where
  events : List Event
  adds : List MemoryAdd
deriving DecidableEq, Repr

/-- Outcomes of the external calls the orchestrator itself makes:
`settings.mem0_enabled`, `mem0_service.retrieve_memories(user_id, limit)`,
`supervisor_agent.route(message, user_id, conversation_history,
user_memories)` (whose implementation lives outside `src/`), the outcomes for
the chosen agent, and the `add_memory` call the orchestrator itself makes. -/
structure OrchestratorEnv where
  mem0_enabled : Bool
  retrieveMemories : String → Nat → Except String (List String)
  route : String → String → List ChatMessage → Option UserMemories → Except String String
  agentEnv : AgentEnv
  addMemory : String → String → Metadata → Except String Unit

/-- Step 1 of `event_generator` (`backend.py` lines 194-204): when
`settings.mem0_enabled`, call `retrieve_memories(user_id, 5)` and build the
`user_memories` dict; otherwise `user_memories = None`.  A raising retrieve
propagates (there is no local handler). -/
def fetch_user_memories (p : MultiModalRequest) (env : OrchestratorEnv) :
    Except String (Option UserMemories) :=
  if env.mem0_enabled then
    match env.retrieveMemories p.user_id 5 with
    | .error e => .error e
    | .ok mems => .ok (some ⟨mems, p.user_id⟩)
  else
    .ok none

/-- The conversation history passed to `route`:
`payload.conversation_history or []` (`backend.py` lines 211-214). -/
def historyOf (p : MultiModalRequest) : List ChatMessage :=
  p.conversation_history.getD []

/-- Message of the memory write-back the orchestrator performs
(`backend.py` line 250). -/
def orchMemoryMessage (recommended_agent message : String) : String :=
  "Used " ++ recommended_agent ++ " agent: " ++ message.take 100

/-- Metadata of the memory write-back the orchestrator performs
(`backend.py` lines 251-255). -/
def orchMemoryMetadata (recommended_agent mode : String) (response_length : Nat) :
    Metadata :=
  [("agent", MetaVal.s recommended_agent), ("mode", MetaVal.s mode),
   ("response_length", MetaVal.n response_length)]

/-- Embeds `event_generator` of the `/multi-agent/stream` endpoint
(`backend.py` lines 184-264).  Control flow from the source: fetch user
memories (step 1); `supervisor_agent.route` (step 2);
`AGENT_REGISTRY.get(recommended_agent)`, raising
`ValueError("Unknown agent: ...")` when absent (step 3); drain
`agent.process`, accumulating `full_response` and emitting one content event
per chunk (step 4); when `mem0_enabled`, `add_memory` of the truncated user
message with the response length in metadata (step 5).  The surrounding
`except` turns any raised exception into one final error fragment; chunks
already relayed and memory appends already performed stand. -/
def event_generator (p : MultiModalRequest) (env : OrchestratorEnv) : StreamResult :=
  match fetch_user_memories p env with
  | .error e => ⟨[errEvent e], []⟩
  | .ok user_memories =>
    match env.route p.message p.user_id (historyOf p) user_memories with
    | .error e => ⟨[errEvent e], []⟩
    | .ok recommended_agent =>
      match lookupRegistry recommended_agent with
      | none => ⟨[errEvent ("Unknown agent: " ++ recommended_agent)], []⟩
      | some proc =>
        let t := proc p.message p.user_id user_memories env.agentEnv
        let contentEvents := t.chunks.map (fun c => contentEvent c recommended_agent p.mode)
        let full_response := String.join t.chunks
        match t.err with
        | some e => ⟨contentEvents ++ [errEvent e], t.adds⟩
        | none =>
          if env.mem0_enabled then
            let msg := orchMemoryMessage recommended_agent p.message
            let md := orchMemoryMetadata recommended_agent p.mode full_response.length
            match env.addMemory p.user_id msg md with
            | .error e => ⟨contentEvents ++ [errEvent e], t.adds⟩
            | .ok _ => ⟨contentEvents, t.adds ++ [⟨p.user_id, msg, md⟩]⟩
          else
            ⟨contentEvents, t.adds⟩

/-- Concatenation, in emission order, of the `content` values of a list of
emitted events. -/
def concatContent (events : List Event) : String :=
  String.join (events.filterMap Event.content)

/-- One chunk of the OpenAI streaming response: the `delta.content` of each
element of `chunk.choices`. -/
structure StreamChunk where
  choices : List (Option String)
deriving DecidableEq, Repr

/-- The guard `if chunk.choices and chunk.choices[0].delta.content` of
`stream_chat_completion` (`llm_service.py` line 41): a chunk is yielded only
when `choices` is nonempty and the first delta content is truthy
(neither `None` nor the empty string). -/
def chunkYield (c : StreamChunk) : Option String :=
  match c.choices with
  | [] => none
  | none :: _ => none
  | some s :: _ => if s = "" then none else some s

/-- The guard `if response.choices and response.choices[0].message.content`
of the non-streaming fallback (`llm_service.py` line 53): `none` models an
empty `choices` list or a `None` content; the empty string is also falsy. -/
def retryYield : Option String → List String
  | none => []
  | some s => if s = "" then [] else [s]

/-- Outcomes of the two Groq client calls `stream_chat_completion` can make,
both as functions of the message list passed to them.  `streamCreate` returns
either `Except.error e` (the `create(..., stream=True)` call itself raised) or
the chunks delivered together with `some e` when the stream raised mid
iteration after those chunks.  `plainCreate` is the `stream=False` retry,
returning the optional first-choice message content. -/
structure LLMClientEnv where
  streamCreate : List ChatMessage → Except String (List StreamChunk × Option String)
  plainCreate : List ChatMessage → Except String (Option String)

/-- Embeds `LLMService.stream_chat_completion` (`llm_service.py` lines 20-54):
prepend the system message; try streaming, yielding each truthy delta; if the
streaming call (or the iteration over it) raises, issue a non-streaming call
with the same messages and yield its content as a single fragment when
truthy.  Returns the fragments yielded and `some e` when the run itself ends
by raising (which happens only when the retry call raises). -/
def stream_chat_completion (messages : List ChatMessage) (system_prompt : String)
    (env : LLMClientEnv) : List String × Option String :=
  let openai_messages := ⟨"system", system_prompt⟩ :: messages
  match env.streamCreate openai_messages with
  | .error _e =>
    (match env.plainCreate openai_messages with
     | .error e2 => ([], some e2)
     | .ok c => (retryYield c, none))
  | .ok (chunks, merr) =>
    let frags := chunks.filterMap chunkYield
    match merr with
    | none => (frags, none)
    | some _e =>
      match env.plainCreate openai_messages with
      | .error e2 => (frags, some e2)
      | .ok c => (frags ++ retryYield c, none)

/-- An SSE event of the legacy `/llm/stream` endpoint: a JSON object with a
single `content` field (never `agent`, never `error`). -/
structure LegacyEvent where
  content : String
deriving DecidableEq, Repr

/-- The system prompt of the legacy endpoint (`backend.py` lines 313-318,
after `.strip()`). -/
def legacy_system_prompt : String :=
  "You are a helpful AI assistant. When provided with relevant information or context below, \n" ++
  "use it to answer the user\x27s question accurately and completely. Always use the information \n" ++
  "provided to give thorough, detailed answers. Be conversational and friendly while being informative.\n" ++
  "If the context contains the answer, state it clearly and add relevant details from the context."

/-- Scan `for m in reversed(messages): if m.role == "user"` of
`llm_stream` (`backend.py` lines 295-299): content of the last user-role
message, when any. -/
def lastUserMessage (messages : List ChatMessage) : Option String :=
  (messages.reverse.find? (fun m => m.role == "user")).map ChatMessage.content

/-- The event stream of the legacy generator given the outcome of
`stream_chat_completion`: empty chunks are skipped (`if not chunk: continue`),
each remaining chunk becomes `{"content": chunk}`, and a raising run appends
one final `{"content": "Error: " + str(e)}` event. -/
def legacyEvents : List String × Option String → List LegacyEvent
  | (frags, merr) =>
    let contentEvents := (frags.filter (fun c => c != "")).map LegacyEvent.mk
    match merr with
    | none => contentEvents
    | some e => contentEvents ++ [⟨"Error: " ++ e⟩]

/-- The legacy `/llm/stream` endpoint (`backend.py` lines 280-352).
`Except.error (status, detail)` models `raise HTTPException(status_code=...,
detail=...)` before any stream is opened; `Except.ok` carries the SSE events
of the opened stream.  The source guard `if not user_message:` at line 301 is
Python truthiness: it fires both when no user-role message exists
(`user_message` still `None`) and when the last user-role message has empty
string content.  Past validation, the endpoint passes the FULL formatted
message list (not the extracted `user_message`, which is only logged) to
`llm_service.stream_chat_completion`. -/
def llm_stream (messages : List ChatMessage) (env : LLMClientEnv) :
    Except (Nat × String) (List LegacyEvent) :=
  if messages = [] then
    .error (400, "No messages provided")
  else
    match lastUserMessage messages with
    | none => .error (400, "No user message found")
    | some user_message =>
      if user_message = "" then
        .error (400, "No user message found")
      else
        .ok (legacyEvents (stream_chat_completion messages legacy_system_prompt env))

set_option maxRecDepth 8192

/-- Helper: a successful registry lookup means the key is one of the six
statically configured domains. -/
theorem mem_agent_domains_of_lookup (d : String) (proc : AgentProc)
    (h : lookupRegistry d = some proc) : d ∈ agent_domains := by
  unfold lookupRegistry AGENT_REGISTRY at h
  simp only [List.lookup] at h
  repeat' split at h
  all_goals simp_all [agent_domains]

/-- Helper: when every agent-side external call succeeds but every completion
call raises `e`, the agent any registry key resolves to terminates with `e`,
appends nothing, and has emitted exactly one fragment (its preamble). -/
theorem lookup_process_llm_error (d : String) (proc : AgentProc)
    (h : lookupRegistry d = some proc) (m u : String) (um : Option UserMemories)
    (env : AgentEnv) (mems : List String) (rs : List SearchResult)
    (docs : List DocResult) (e : String)
    (hmem : ∀ x, env.retrieveMemories x = .ok mems)
    (hnews : ∀ x n, env.searchNews x n = .ok rs)
    (hjobs : ∀ x n, env.searchJobs x n = .ok rs)
    (hrec : ∀ x n, env.searchRecipes x n = .ok rs)
    (hdoc : ∀ x, env.queryDocuments x = .ok docs)
    (hllm : ∀ s, env.llmInvoke s = .error e) :
    (proc m u um env).err = some e ∧ (proc m u um env).adds = [] ∧
    ∃ pre, (proc m u um env).chunks = [pre] := by
  unfold lookupRegistry AGENT_REGISTRY at h
  simp only [List.lookup] at h
  repeat' split at h
  any_goals exact Option.noConfusion h
  all_goals
    injection h with h
    subst h
    simp only [ResearchAgent_process, FinanceAgent_process,
      TravelAgent_process, ShoppingAgent_process, JobsAgent_process,
      RecipesAgent_process, hmem, hnews, hjobs, hrec, hdoc, hllm]
    exact ⟨trivial, trivial, _, rfl⟩

/-- Helper: whichever agent a registry key resolves to appends exactly one
memory record whenever its `process` run terminates normally. -/
theorem lookup_process_adds_length (d : String) (proc : AgentProc)
    (h : lookupRegistry d = some proc) (m u : String) (um : Option UserMemories)
    (env : AgentEnv) (hn : (proc m u um env).err = none) :
    (proc m u um env).adds.length = 1 := by
  unfold lookupRegistry AGENT_REGISTRY at h
  simp only [List.lookup] at h
  repeat' split at h
  any_goals exact Option.noConfusion h
  all_goals
    injection h with h
    subst h
    revert hn
    simp only [ResearchAgent_process, FinanceAgent_process,
      TravelAgent_process, ShoppingAgent_process, JobsAgent_process,
      RecipesAgent_process]
    repeat' split
    all_goals simp

/-- Helper: when every Tool Provider search raises `e` while the memory read
succeeds, the agent any non-travel registry key resolves to terminates with
`e` right after its single preamble fragment, appending nothing (the travel
agent is excluded: its `process` makes no tool call at all). -/
theorem lookup_process_tool_error (d : String) (proc : AgentProc)
    (h : lookupRegistry d = some proc) (hd : d ≠ "travel") (m u : String)
    (um : Option UserMemories) (env : AgentEnv) (amems : List String)
    (e : String)
    (hmem : ∀ x, env.retrieveMemories x = .ok amems)
    (hnews : ∀ x n, env.searchNews x n = .error e)
    (hjobs : ∀ x n, env.searchJobs x n = .error e)
    (hrec : ∀ x n, env.searchRecipes x n = .error e) :
    (proc m u um env).err = some e ∧ (proc m u um env).adds = [] ∧
    ∃ pre, (proc m u um env).chunks = [pre] := by
  unfold lookupRegistry AGENT_REGISTRY at h
  simp only [List.lookup] at h
  repeat' split at h
  any_goals exact Option.noConfusion h
  all_goals
    injection h with h
    subst h
    first
      | (rename_i hbeq; exact absurd (eq_of_beq hbeq) hd)
      | (simp only [ResearchAgent_process, FinanceAgent_process,
           ShoppingAgent_process, JobsAgent_process, RecipesAgent_process,
           hmem, hnews, hjobs, hrec];
         exact ⟨trivial, trivial, _, rfl⟩)

/-- Helper: extracting the `content` values of a list of content events
recovers the chunk list they were built from. -/
theorem filterMap_content_map (l : List String) (d mode : String) :
    List.filterMap Event.content (l.map (fun c => contentEvent c d mode)) = l := by
  induction l with
  | nil => rfl
  | cons a t ih =>
      simp only [contentEvent] at ih ⊢
      simp only [List.map_cons, List.filterMap_cons]
      rw [ih]

/-- Helper: the full shape of a normally-completing request with the memory
store enabled — one content event per agent chunk, and the agent appends
followed by the orchestrator record whose metadata carries the length of the
joined chunk text. -/
theorem event_generator_normal (p : MultiModalRequest) (env : OrchestratorEnv)
    (mems : List String) (d : String) (proc : AgentProc)
    (h1 : env.mem0_enabled = true)
    (h2 : env.retrieveMemories p.user_id 5 = .ok mems)
    (h3 : env.route p.message p.user_id (historyOf p) (some ⟨mems, p.user_id⟩)
            = .ok d)
    (h4 : lookupRegistry d = some proc)
    (h5 : (proc p.message p.user_id (some ⟨mems, p.user_id⟩) env.agentEnv).err
            = none)
    (h6 : ∀ a b c, env.addMemory a b c = Except.ok ()) :
    event_generator p env =
      ⟨((proc p.message p.user_id (some ⟨mems, p.user_id⟩)
          env.agentEnv).chunks).map (fun c => contentEvent c d p.mode),
       (proc p.message p.user_id (some ⟨mems, p.user_id⟩) env.agentEnv).adds ++
         [⟨p.user_id, orchMemoryMessage d p.message,
           orchMemoryMetadata d p.mode
             (String.join (proc p.message p.user_id (some ⟨mems, p.user_id⟩)
                env.agentEnv).chunks).length⟩]⟩ := by
  simp [event_generator, fetch_user_memories, h1, h2, h3, h4, h5, h6]

/-- An agent environment in which every external call succeeds and the
completion returns `ANSWER`. -/
def okAgentEnv : AgentEnv where
  retrieveMemories := fun _ => .ok ["likes flights"]
  searchNews := fun _ _ => .ok [⟨some "T", some "S"⟩]
  searchJobs := fun _ _ => .ok [⟨some "T", some "S"⟩]
  searchRecipes := fun _ _ => .ok [⟨some "T", some "S"⟩]
  queryDocuments := fun _ => .ok [⟨some "D"⟩]
  llmInvoke := fun _ => .ok "ANSWER"
  addMemory := fun _ _ _ => .ok ()

/-- An orchestrator environment: memory enabled, every call succeeds, the
router selects `research`. -/
def okEnv : OrchestratorEnv where
  mem0_enabled := true
  retrieveMemories := fun _ _ => .ok ["m1"]
  route := fun _ _ _ _ => .ok "research"
  agentEnv := okAgentEnv
  addMemory := fun _ _ _ => .ok ()

/-- A concrete request payload. -/
def p0 : MultiModalRequest := ⟨"u1", "s1", "hello", "text", none⟩

/-- Like `okEnv`, but the Memory Store read raises `mem boom`. -/
def memFailEnv : OrchestratorEnv :=
  { okEnv with retrieveMemories := fun _ _ => .error "mem boom" }

/-- Like `okAgentEnv`, but the news search raises `news boom`. -/
def newsFailAgentEnv : AgentEnv :=
  { okAgentEnv with searchNews := fun _ _ => .error "news boom" }

/-- Like `okAgentEnv`, but every Tool Provider search raises `tool boom`. -/
def toolFailAgentEnv : AgentEnv :=
  { okAgentEnv with
    searchNews := fun _ _ => .error "tool boom",
    searchJobs := fun _ _ => .error "tool boom",
    searchRecipes := fun _ _ => .error "tool boom",
    queryDocuments := fun _ => .error "tool boom" }

/-- Orchestrator environment around `toolFailAgentEnv`. -/
def toolFailEnv : OrchestratorEnv :=
  { okEnv with agentEnv := toolFailAgentEnv }

/-- Like `okAgentEnv`, but every completion call raises `llm boom`. -/
def llmFailAgentEnv : AgentEnv :=
  { okAgentEnv with llmInvoke := fun _ => .error "llm boom" }

/-- Orchestrator environment around `llmFailAgentEnv`. -/
def llmFailEnv : OrchestratorEnv :=
  { okEnv with agentEnv := llmFailAgentEnv }

/-- Like `okAgentEnv`, but the completion returns `HELLO WORLD`. -/
def helloAgentEnv : AgentEnv :=
  { okAgentEnv with llmInvoke := fun _ => .ok "HELLO WORLD" }

/-- Like `okEnv`, but the router returns the unknown identifier `weather`. -/
def unknownRouteEnv : OrchestratorEnv :=
  { okEnv with route := fun _ _ _ _ => .ok "weather" }

/-- Claim C1 counterexample: in a fully successful research-routed request,
the concatenation of the emitted `content` values is the preamble plus the
completion text, while NEITHER persisted MemoryRecord carries that text as
its message payload — the two records carry `Researched: hello` and
`Used research agent: hello`, both built from the user message, so the claim
that the concatenation equals the MemoryRecord payload fails here. -/
theorem C1_counterexample :
    concatContent (event_generator p0 okEnv).events
      = research_preamble ++ "ANSWER" ∧
    (event_generator p0 okEnv).adds.map MemoryAdd.message
      = ["Researched: hello", "Used research agent: hello"] ∧
    ((event_generator p0 okEnv).adds.map MemoryAdd.message).contains
      (concatContent (event_generator p0 okEnv).events) = false := by
  decide

/-- Claim C1 (amended): for every request that completes streaming normally
(memory store enabled, any routed domain), concatenating the fragment
`content` values in emission order reproduces exactly the accumulated
response text (the join of the agent chunks); the MemoryRecord the
orchestrator appends last persists only the LENGTH of that text, as the
`response_length` metadata entry, while its message payload is
`Used {agent} agent: ` plus the first 100 characters of the user message —
not the accumulated text. -/
theorem C1_concat_is_accumulated_text (p : MultiModalRequest)
    (env : OrchestratorEnv) (mems : List String) (d : String)
    (proc : AgentProc)
    (h1 : env.mem0_enabled = true)
    (h2 : env.retrieveMemories p.user_id 5 = .ok mems)
    (h3 : env.route p.message p.user_id (historyOf p) (some ⟨mems, p.user_id⟩)
            = .ok d)
    (h4 : lookupRegistry d = some proc)
    (h5 : (proc p.message p.user_id (some ⟨mems, p.user_id⟩) env.agentEnv).err
            = none)
    (h6 : ∀ a b c, env.addMemory a b c = Except.ok ()) :
    concatContent (event_generator p env).events
      = String.join (proc p.message p.user_id (some ⟨mems, p.user_id⟩)
          env.agentEnv).chunks ∧
    (event_generator p env).adds.getLast? =
      some ⟨p.user_id, orchMemoryMessage d p.message,
        orchMemoryMetadata d p.mode
          (concatContent (event_generator p env).events).length⟩ := by
  have hshape := event_generator_normal p env mems d proc h1 h2 h3 h4 h5 h6
  have hconcat : concatContent (event_generator p env).events
      = String.join (proc p.message p.user_id (some ⟨mems, p.user_id⟩)
          env.agentEnv).chunks := by
    rw [hshape]
    simp only [concatContent, filterMap_content_map]
  refine ⟨hconcat, ?_⟩
  rw [hconcat, hshape]
  simp

/-- Claim C1 witness: the amended theorem applied to a concrete
normally-completing request. -/
theorem C1_witness :
    (ResearchAgent_process p0.message p0.user_id (some ⟨["m1"], p0.user_id⟩)
        okEnv.agentEnv).err = none ∧
    concatContent (event_generator p0 okEnv).events
      = String.join (ResearchAgent_process p0.message p0.user_id
          (some ⟨["m1"], p0.user_id⟩) okEnv.agentEnv).chunks :=
  ⟨by decide,
   (C1_concat_is_accumulated_text p0 okEnv ["m1"] "research"
     ResearchAgent_process rfl rfl rfl rfl (by decide)
     (fun _ _ _ => rfl)).1⟩

/-- Claim C2 counterexample: a research-routed request that streams to normal
completion (the emitted events are exactly the two content fragments, no
error fragment) appends TWO MemoryRecords — one by the agent inside
`process`, one by the orchestrator afterwards — not exactly one. -/
theorem C2_counterexample :
    (event_generator p0 okEnv).events
      = [contentEvent research_preamble "research" "text",
         contentEvent "ANSWER" "research" "text"] ∧
    (event_generator p0 okEnv).adds.length = 2 := by
  decide

/-- Claim C2 (amended): for every request that completes streaming normally
with the memory store enabled, exactly TWO MemoryRecords are appended: the
domain agent performs its own append inside `process`, and the orchestrator
then unconditionally appends a second record — the write-back is performed by
both, not by exactly one of them. -/
theorem C2_two_memory_records (p : MultiModalRequest) (env : OrchestratorEnv)
    (mems : List String) (d : String) (proc : AgentProc)
    (h1 : env.mem0_enabled = true)
    (h2 : env.retrieveMemories p.user_id 5 = .ok mems)
    (h3 : env.route p.message p.user_id (historyOf p) (some ⟨mems, p.user_id⟩)
            = .ok d)
    (h4 : lookupRegistry d = some proc)
    (h5 : (proc p.message p.user_id (some ⟨mems, p.user_id⟩) env.agentEnv).err
            = none)
    (h6 : ∀ a b c, env.addMemory a b c = Except.ok ()) :
    (event_generator p env).adds.length = 2 := by
  have hlen := lookup_process_adds_length d proc h4 p.message p.user_id
    (some ⟨mems, p.user_id⟩) env.agentEnv h5
  simp [event_generator, fetch_user_memories, h1, h2, h3, h4, h5, h6, hlen]

/-- Claim C2 witness: a concrete normally-completing request satisfying the
hypotheses of the amended theorem. -/
theorem C2_witness :
    (ResearchAgent_process p0.message p0.user_id (some ⟨["m1"], p0.user_id⟩)
        okEnv.agentEnv).err = none ∧
    (event_generator p0 okEnv).adds.length = 2 :=
  ⟨by decide,
   C2_two_memory_records p0 okEnv ["m1"] "research" ResearchAgent_process
     rfl rfl rfl rfl (by decide) (fun _ _ _ => rfl)⟩

/-- Claim C3 counterexample: with the memory store enabled and a Memory Store
read that raises `mem boom`, the request is aborted — the only emitted event
is the terminal error fragment (no routing-derived content fragment with an
`agent` field is ever emitted, although the router and agent of this
environment would have succeeded) and nothing is appended. -/
theorem C3_counterexample :
    event_generator p0 memFailEnv = ⟨[errEvent "mem boom"], []⟩ ∧
    (errEvent "mem boom").agent = none ∧
    memFailEnv.route p0.message p0.user_id [] none = .ok "research" := by
  decide

/-- Claim C3 (amended): when the Memory Store read raises, the exception
propagates to the endpoint handler: the request is aborted with exactly one
terminal error fragment, the router is never consulted, no agent response is
streamed, and no MemoryRecord is appended. -/
theorem C3_memory_read_failure_aborts (p : MultiModalRequest)
    (env : OrchestratorEnv) (e : String)
    (h1 : env.mem0_enabled = true)
    (h2 : env.retrieveMemories p.user_id 5 = .error e) :
    event_generator p env = ⟨[errEvent e], []⟩ := by
  simp [event_generator, fetch_user_memories, h1, h2]

/-- Claim C3 witness: the amended theorem applied to a concrete request. -/
theorem C3_witness :
    memFailEnv.retrieveMemories p0.user_id 5 = .error "mem boom" ∧
    event_generator p0 memFailEnv = ⟨[errEvent "mem boom"], []⟩ :=
  ⟨rfl, C3_memory_read_failure_aborts p0 memFailEnv "mem boom" rfl rfl⟩

/-- Claim C4 counterexample: when the news search raises `news boom`, the
research agent does NOT substitute an empty result set and continue — it
terminates with the exception right after its preamble fragment, never
invoking the completion provider (which in this environment would have
answered `ANSWER`) and appending nothing. -/
theorem C4_counterexample :
    ResearchAgent_process "q" "u" none newsFailAgentEnv
      = ⟨[research_preamble], [], some "news boom"⟩ ∧
    newsFailAgentEnv.llmInvoke "any prompt" = .ok "ANSWER" := by
  decide

/-- Claim C4 (amended): for every domain agent (each of the five whose
`process` makes a Tool Provider search call — travel makes none), a raising
search aborts the agent: the exception propagates out of `process` right
after the single preamble fragment, no prompt is completed and no memory is
appended; the endpoint handler then converts the exception into the terminal
error fragment and no MemoryRecord is appended for the request. -/
theorem C4_tool_failure_propagates (p : MultiModalRequest)
    (env : OrchestratorEnv) (mems amems : List String) (d : String)
    (proc : AgentProc) (e : String)
    (h1 : env.mem0_enabled = true)
    (h2 : env.retrieveMemories p.user_id 5 = .ok mems)
    (h3 : env.route p.message p.user_id (historyOf p) (some ⟨mems, p.user_id⟩)
            = .ok d)
    (h4 : lookupRegistry d = some proc)
    (h5 : d ≠ "travel")
    (hmem : ∀ x, env.agentEnv.retrieveMemories x = .ok amems)
    (hnews : ∀ x n, env.agentEnv.searchNews x n = .error e)
    (hjobs : ∀ x n, env.agentEnv.searchJobs x n = .error e)
    (hrec : ∀ x n, env.agentEnv.searchRecipes x n = .error e) :
    ∃ pre, (event_generator p env).events
        = [contentEvent pre d p.mode, errEvent e] ∧
      (event_generator p env).adds = [] := by
  obtain ⟨herr, hadds, pre, hchunks⟩ :=
    lookup_process_tool_error d proc h4 h5 p.message p.user_id
      (some ⟨mems, p.user_id⟩) env.agentEnv amems e hmem hnews hjobs hrec
  refine ⟨pre, ?_, ?_⟩ <;>
    simp [event_generator, fetch_user_memories, h1, h2, h3, h4, herr,
      hchunks, hadds]

/-- Claim C4 witness: the amended theorem applied to a concrete request whose
Tool Providers are all down. -/
theorem C4_witness :
    (∀ x n, toolFailEnv.agentEnv.searchNews x n = .error "tool boom") ∧
    (∃ pre, (event_generator p0 toolFailEnv).events
        = [contentEvent pre "research" "text", errEvent "tool boom"] ∧
      (event_generator p0 toolFailEnv).adds = []) :=
  ⟨fun _ _ => rfl,
   C4_tool_failure_propagates p0 toolFailEnv ["m1"] ["likes flights"]
     "research" ResearchAgent_process "tool boom" rfl rfl rfl rfl (by decide)
     (fun _ => rfl) (fun _ _ => rfl) (fun _ _ => rfl) (fun _ _ => rfl)⟩

/-- Claim C5: when the Completion Provider raises `e` while every other
external call succeeds, the endpoint emits the fragments produced so far
(the agent preamble), then exactly one additional terminal error fragment
carrying both `error` and `content` fields, emits nothing after it, and
appends no MemoryRecord for the request. -/
theorem C5_completion_failure_terminal (p : MultiModalRequest)
    (env : OrchestratorEnv) (mems amems : List String)
    (rs : List SearchResult) (docs : List DocResult) (d : String)
    (proc : AgentProc) (e : String)
    (h1 : env.mem0_enabled = true)
    (h2 : env.retrieveMemories p.user_id 5 = .ok mems)
    (h3 : env.route p.message p.user_id (historyOf p) (some ⟨mems, p.user_id⟩)
            = .ok d)
    (h4 : lookupRegistry d = some proc)
    (hmem : ∀ x, env.agentEnv.retrieveMemories x = .ok amems)
    (hnews : ∀ x n, env.agentEnv.searchNews x n = .ok rs)
    (hjobs : ∀ x n, env.agentEnv.searchJobs x n = .ok rs)
    (hrec : ∀ x n, env.agentEnv.searchRecipes x n = .ok rs)
    (hdoc : ∀ x, env.agentEnv.queryDocuments x = .ok docs)
    (hllm : ∀ s, env.agentEnv.llmInvoke s = .error e) :
    ∃ pre, (event_generator p env).events
        = [contentEvent pre d p.mode, errEvent e] ∧
      (event_generator p env).adds = [] ∧
      (errEvent e).error = some e ∧
      (errEvent e).content = some ("Error: " ++ e) := by
  obtain ⟨herr, hadds, pre, hchunks⟩ :=
    lookup_process_llm_error d proc h4 p.message p.user_id
      (some ⟨mems, p.user_id⟩) env.agentEnv amems rs docs e
      hmem hnews hjobs hrec hdoc hllm
  refine ⟨pre, ?_, ?_, rfl, rfl⟩ <;>
    simp [event_generator, fetch_user_memories, h1, h2, h3, h4, herr,
      hchunks, hadds]

/-- Claim C5 witness: the theorem applied to a concrete request whose
completion provider is down. -/
theorem C5_witness :
    (∀ s, llmFailEnv.agentEnv.llmInvoke s = .error "llm boom") ∧
    (∃ pre, (event_generator p0 llmFailEnv).events
        = [contentEvent pre "research" "text", errEvent "llm boom"] ∧
      (event_generator p0 llmFailEnv).adds = [] ∧
      (errEvent "llm boom").error = some "llm boom" ∧
      (errEvent "llm boom").content = some ("Error: " ++ "llm boom")) :=
  ⟨fun _ => rfl,
   C5_completion_failure_terminal p0 llmFailEnv ["m1"] ["likes flights"]
     [⟨some "T", some "S"⟩] [⟨some "D"⟩] "research" ResearchAgent_process
     "llm boom" rfl rfl rfl rfl (fun _ => rfl) (fun _ _ => rfl)
     (fun _ _ => rfl) (fun _ _ => rfl) (fun _ => rfl) (fun _ => rfl)⟩

/-- Claim C6 counterexample: in a successful run with the completion text
`HELLO WORLD`, the research agent emits exactly two fragments: a fixed
preamble that is NOT part of any Completion Provider output, and then the
ENTIRE completion as one single fragment — the emitted sequence is not the
provider output fragments forwarded unchanged, and the full provider output
is collected into a single fragment before emission. -/
theorem C6_counterexample :
    (ResearchAgent_process "q" "u" none helloAgentEnv).chunks
      = [research_preamble, "HELLO WORLD"] ∧
    research_preamble ≠ "HELLO WORLD" := by
  decide

/-- Claim C6 (amended): on a normal run, every domain agent the registry can
resolve emits exactly two fragments: its fixed domain preamble, then the
completion provider response in its entirety as one single fragment (the
provider is invoked non-streaming via `ainvoke`); no incremental provider
fragments are forwarded. -/
theorem C6_preamble_then_single_fragment (d : String) (proc : AgentProc)
    (m u : String) (um : Option UserMemories) (env : AgentEnv)
    (amems : List String) (rs : List SearchResult) (docs : List DocResult)
    (full : String)
    (h : lookupRegistry d = some proc)
    (hmem : ∀ x, env.retrieveMemories x = .ok amems)
    (hnews : ∀ x n, env.searchNews x n = .ok rs)
    (hjobs : ∀ x n, env.searchJobs x n = .ok rs)
    (hrec : ∀ x n, env.searchRecipes x n = .ok rs)
    (hdoc : ∀ x, env.queryDocuments x = .ok docs)
    (hllm : ∀ s, env.llmInvoke s = .ok full)
    (hadd : ∀ a b c, env.addMemory a b c = Except.ok ()) :
    (proc m u um env).err = none ∧
    ∃ pre, (proc m u um env).chunks = [pre, full] := by
  unfold lookupRegistry AGENT_REGISTRY at h
  simp only [List.lookup] at h
  repeat' split at h
  any_goals exact Option.noConfusion h
  all_goals
    injection h with h
    subst h
    simp only [ResearchAgent_process, FinanceAgent_process,
      TravelAgent_process, ShoppingAgent_process, JobsAgent_process,
      RecipesAgent_process, hmem, hnews, hjobs, hrec, hdoc, hllm, hadd]
    exact ⟨trivial, _, rfl⟩

/-- Claim C6 witness: the amended theorem applied to a concrete run of the
research agent. -/
theorem C6_witness :
    (∀ s, okAgentEnv.llmInvoke s = .ok "ANSWER") ∧
    ((ResearchAgent_process "q" "u" none okAgentEnv).err = none ∧
     ∃ pre, (ResearchAgent_process "q" "u" none okAgentEnv).chunks
        = [pre, "ANSWER"]) :=
  ⟨fun _ => rfl,
   C6_preamble_then_single_fragment "research" ResearchAgent_process "q" "u"
     none okAgentEnv ["likes flights"] [⟨some "T", some "S"⟩] [⟨some "D"⟩]
     "ANSWER" rfl (fun _ => rfl) (fun _ _ => rfl) (fun _ _ => rfl)
     (fun _ _ => rfl) (fun _ => rfl) (fun _ => rfl) (fun _ _ _ => rfl)⟩

/-- Claim C7: when the router returns an identifier absent from the agent
registry, the request fails fatally: the `ValueError` is surfaced to the
caller as the single emitted event, an error fragment naming the unknown
agent (it carries no `agent` field, and no content fragment is emitted
beforehand); no default agent is substituted and nothing is appended. -/
theorem C7_unknown_agent_fatal (p : MultiModalRequest) (env : OrchestratorEnv)
    (um : Option UserMemories) (d : String)
    (h1 : fetch_user_memories p env = .ok um)
    (h2 : env.route p.message p.user_id (historyOf p) um = .ok d)
    (h3 : lookupRegistry d = none) :
    event_generator p env = ⟨[errEvent ("Unknown agent: " ++ d)], []⟩ ∧
    (errEvent ("Unknown agent: " ++ d)).agent = none ∧
    (errEvent ("Unknown agent: " ++ d)).error
      = some ("Unknown agent: " ++ d) := by
  refine ⟨?_, rfl, rfl⟩
  simp [event_generator, h1, h2, h3]

/-- Claim C7 witness: the theorem applied to a request routed to the unknown
identifier `weather`. -/
theorem C7_witness :
    lookupRegistry "weather" = none ∧
    event_generator p0 unknownRouteEnv
      = ⟨[errEvent ("Unknown agent: " ++ "weather")], []⟩ :=
  ⟨rfl, (C7_unknown_agent_fatal p0 unknownRouteEnv (some ⟨["m1"], "u1"⟩)
    "weather" rfl rfl rfl).1⟩

/-- Claim C8: every event emitted by the multi-agent stream endpoint that
carries an `agent` field carries a member of the statically known domain set
`agent_domains` (the keys of `AGENT_REGISTRY`). -/
theorem C8_agent_field_in_domains (p : MultiModalRequest)
    (env : OrchestratorEnv) (ev : Event) (a : String)
    (hmem : ev ∈ (event_generator p env).events)
    (ha : ev.agent = some a) : a ∈ agent_domains := by
  unfold event_generator at hmem
  rcases hf : fetch_user_memories p env with e | um
  · simp only [hf, List.mem_singleton] at hmem
    subst hmem
    exact Option.noConfusion ha
  · rcases hr : env.route p.message p.user_id (historyOf p) um with e | rec
    · simp only [hf, hr, List.mem_singleton] at hmem
      subst hmem
      exact Option.noConfusion ha
    · rcases hl : lookupRegistry rec with _ | proc
      · simp only [hf, hr, hl, List.mem_singleton] at hmem
        subst hmem
        exact Option.noConfusion ha
      · have hdom := mem_agent_domains_of_lookup rec proc hl
        rcases he : (proc p.message p.user_id um env.agentEnv).err with _ | e
        · rcases hb : env.mem0_enabled
          · simp only [hf, hr, hl, he, hb, Bool.false_eq_true, if_false,
              List.mem_map] at hmem
            obtain ⟨c, -, rfl⟩ := hmem
            simp only [contentEvent, Option.some.injEq] at ha
            subst ha
            exact hdom
          · rcases hw : env.addMemory p.user_id
                (orchMemoryMessage rec p.message)
                (orchMemoryMetadata rec p.mode
                  (String.join (proc p.message p.user_id um
                    env.agentEnv).chunks).length) with e2 | u2
            · simp only [hf, hr, hl, he, hb, if_true, hw, List.mem_append,
                List.mem_map, List.mem_singleton] at hmem
              rcases hmem with ⟨c, -, rfl⟩ | rfl
              · simp only [contentEvent, Option.some.injEq] at ha
                subst ha
                exact hdom
              · exact Option.noConfusion ha
            · simp only [hf, hr, hl, he, hb, if_true, hw,
                List.mem_map] at hmem
              obtain ⟨c, -, rfl⟩ := hmem
              simp only [contentEvent, Option.some.injEq] at ha
              subst ha
              exact hdom
        · simp only [hf, hr, hl, he, List.mem_append, List.mem_map,
            List.mem_singleton] at hmem
          rcases hmem with ⟨c, -, rfl⟩ | rfl
          · simp only [contentEvent, Option.some.injEq] at ha
            subst ha
            exact hdom
          · exact Option.noConfusion ha

/-- Claim C8 witness: a concrete emitted fragment with an `agent` field whose
value the theorem places in the domain set. -/
theorem C8_witness :
    contentEvent research_preamble "research" "text"
        ∈ (event_generator p0 okEnv).events ∧
    "research" ∈ agent_domains :=
  ⟨by decide,
   C8_agent_field_in_domains p0 okEnv
     (contentEvent research_preamble "research" "text") "research"
     (by decide) rfl⟩

/-- A client environment whose streaming call raises and whose non-streaming
retry returns the full text `FULL`. -/
def retryClientEnv : LLMClientEnv where
  streamCreate := fun _ => .error "stream down"
  plainCreate := fun _ => .ok (some "FULL")

/-- A client environment whose streamed output depends on how many messages
reach the provider, used to observe that the whole conversation, not only the
last user message, is sent to it. -/
def countingClientEnv : LLMClientEnv where
  streamCreate := fun ms =>
    .ok (if 3 ≤ ms.length then [⟨[some "LONG"]⟩] else [⟨[some "SHORT"]⟩], none)
  plainCreate := fun _ => .ok none

/-- One user message `a`. -/
def msgsA : List ChatMessage := [⟨"user", "a"⟩]

/-- An assistant message followed by the same user message `a`. -/
def msgsB : List ChatMessage := [⟨"assistant", "b"⟩, ⟨"user", "a"⟩]

/-- Claim C9: if the streaming completion call raises, `stream_chat_completion`
does not propagate that error: it issues the non-streaming call with the same
(system-prefixed) message list and yields that response text as a single
fragment — and yields nothing when the retry returns no content — terminating
normally either way. -/
theorem C9_streaming_fallback (messages : List ChatMessage) (sp : String)
    (env : LLMClientEnv) (e : String) (r : Option String)
    (h1 : env.streamCreate (⟨"system", sp⟩ :: messages) = .error e)
    (h2 : env.plainCreate (⟨"system", sp⟩ :: messages) = .ok r) :
    stream_chat_completion messages sp env = (retryYield r, none) := by
  simp [stream_chat_completion, h1, h2]

/-- Claim C9 witness: the theorem applied to a concrete failing stream whose
retry answers `FULL`. -/
theorem C9_witness :
    retryClientEnv.streamCreate [⟨"system", "sys"⟩, ⟨"user", "hi"⟩]
      = .error "stream down" ∧
    stream_chat_completion [⟨"user", "hi"⟩] "sys" retryClientEnv
      = (["FULL"], none) :=
  ⟨rfl, C9_streaming_fallback [⟨"user", "hi"⟩] "sys" retryClientEnv
    "stream down" (some "FULL") rfl rfl⟩

/-- Claim C10 counterexample: two message lists with the SAME last user-role
message content produce different streamed completions, because the endpoint
passes the whole message list to the provider — the streamed completion is
not generated from the content of the last user message alone. -/
theorem C10_counterexample :
    lastUserMessage msgsA = lastUserMessage msgsB ∧
    llm_stream msgsA countingClientEnv ≠ llm_stream msgsB countingClientEnv := by
  decide

/-- Claim C10 (amended): the legacy endpoint rejects with HTTP 400 before
opening any stream when the message list is empty (`No messages provided`),
when it contains no user-role message, or when the content of the last
user-role message is the empty string (`No user message found` in both cases,
via the Python truthiness of `if not user_message`); otherwise the streamed
completion is generated from the FULL message list with the legacy system
prompt prepended — the extracted last user message content is used only for
validation and logging. -/
theorem C10_legacy_validation (messages : List ChatMessage)
    (env : LLMClientEnv) :
    (messages = [] →
      llm_stream messages env = .error (400, "No messages provided")) ∧
    (messages ≠ [] → (∀ m ∈ messages, m.role ≠ "user") →
      llm_stream messages env = .error (400, "No user message found")) ∧
    (∀ um, lastUserMessage messages = some um → um = "" →
      llm_stream messages env = .error (400, "No user message found")) ∧
    (∀ um, lastUserMessage messages = some um → um ≠ "" →
      llm_stream messages env
        = .ok (legacyEvents
            (stream_chat_completion messages legacy_system_prompt env))) := by
  refine ⟨?_, ?_, ?_, ?_⟩
  · intro h
    subst h
    rfl
  · intro hne hnou
    have hfind : messages.reverse.find? (fun m => m.role == "user") = none := by
      rw [List.find?_eq_none]
      intro x hx
      simp only [List.mem_reverse] at hx
      simpa using hnou x hx
    have hnone : lastUserMessage messages = none := by
      simp [lastUserMessage, hfind]
    simp [llm_stream, hne, hnone]
  · intro um hum he
    have hne : messages ≠ [] := by
      intro h
      subst h
      simp [lastUserMessage] at hum
    subst he
    simp [llm_stream, hne, hum]
  · intro um hum hnem
    have hne : messages ≠ [] := by
      intro h
      subst h
      simp [lastUserMessage] at hum
    simp [llm_stream, hne, hum, hnem]

/-- Claim C10 witness: the amended theorem applied to the empty list, to a
list with no user message, to a list whose last user message has empty
content, and to a valid single-user-message list. -/
theorem C10_witness :
    llm_stream ([] : List ChatMessage) countingClientEnv
      = .error (400, "No messages provided") ∧
    llm_stream [⟨"assistant", "b"⟩] countingClientEnv
      = .error (400, "No user message found") ∧
    llm_stream [⟨"user", ""⟩] countingClientEnv
      = .error (400, "No user message found") ∧
    llm_stream msgsA countingClientEnv
      = .ok (legacyEvents
          (stream_chat_completion msgsA legacy_system_prompt
            countingClientEnv)) :=
  ⟨(C10_legacy_validation [] countingClientEnv).1 rfl,
   (C10_legacy_validation [⟨"assistant", "b"⟩] countingClientEnv).2.1
     (by decide) (by decide),
   (C10_legacy_validation [⟨"user", ""⟩] countingClientEnv).2.2.1 "" rfl rfl,
   (C10_legacy_validation msgsA countingClientEnv).2.2.2 "a" rfl
     (by decide)⟩
